import Mathlib

/-!
Shallow embedding of `pkg/skaffold/deploy/v2/kpt/kpt.go` (the kpt v2
deployer): the Kptfile inventory reconciler `kptfileInitIfNot` and the
`Deploy` session built on top of it.

External processes (`kpt pkg init`, `kpt live init`, `kpt fn source`,
`kpt live apply`) and the filesystem are modelled by an oracle
environment `Env` deciding whether each call succeeds; every external
invocation, file write, warning and informational event is recorded in an
ordered trace of `Event`s, so that call counts, call order and emitted
warnings are observable in theorems.
-/

namespace Kpt

/-- The fallback namespace constant `defaultNs` (kpt.go line 55). -/
def defaultNs : String := "default"

/-- The name of the state file, `kptfile.KptFileName` ("Kptfile"). -/
def KptFileName : String := "Kptfile"

/-- The inventory block of the Kptfile (`kptfile.Inventory`): fields
`InventoryID`, `Name`, `Namespace`.  The field `nspace` embeds the Go
field `Namespace` (a Lean keyword). -/
structure Inventory where
  inventoryID : String
  name : String
  nspace : String
deriving Repr, DecidableEq

/-- The parsed Kptfile (`kptfile.KptFile`): only the `Inventory` field is
read or written by the reconciler; `none` embeds a nil `Inventory`
pointer. -/
structure KptFile where
  inventory : Option Inventory
deriving Repr, DecidableEq

/-- The state of the Kptfile on disk: missing, present but not
well-formed YAML, or present with parsed content. -/
inductive DiskFile where
  | absent
  | unparseable
  | kptfile (kf : KptFile)
deriving Repr, DecidableEq

/-- The Deployer receiver fields used by the reconciler and Deploy
(kpt.go lines 64-83).  `name`, `inventoryID`, `inventoryNamespace`,
`force`, `flags` and `applyFlags` embed the fields of the embedded
`KptV2Deploy` schema; `dir` embeds `applyDir`; `nspace` embeds the
private field `k.namespace` (the per-unit kube namespace from
`cfg.GetKubeNamespace()`). -/
structure Deployer where
  name : String
  inventoryID : String
  inventoryNamespace : String
  force : Bool
  flags : List String
  applyFlags : List String
  dir : String
  nspace : String
deriving Repr, DecidableEq

/-- A warning-level audit record emitted via `logrus.Warnf`: the field
wording used in the message ("inventory", "name" or "namespace"), the old
value and the new value. -/
structure Warning where
  field : String
  oldVal : String
  newVal : String
deriving Repr, DecidableEq

/-- The error values of kpt.go: each constructor embeds one of the error
wrappers (`pkgInitErr`, `openFileErr`, `parseFileErr`, `liveInitErr`,
`sourceErr`, `liveApplyErr`) carrying the offending path, plus
`writeFileErr` for the unwrapped error returned when `yaml.Marshal` or
`ioutil.WriteFile` fails (kpt.go lines 252-258). -/
inductive KptErr where
  | pkgInitErr (dir : String)
  | openFileErr (path : String)
  | parseFileErr (path : String)
  | liveInitErr (dir : String)
  | writeFileErr (path : String)
  | sourceErr (dir : String)
  | liveApplyErr (dir : String)
deriving Repr, DecidableEq

/-- The observable actions of a run, recorded in execution order:
external command invocations (recorded whether or not the command
succeeds), warning records, file writes, informational events and the
artifact-tracking registration. -/
inductive Event where
  | pkgInit (dir : String)
  | liveInit (args : List String)
  | warnEvt (w : Warning)
  | fileWrite (path : String) (kf : KptFile)
  | infoEvent (msg : String)
  | liveApply (args : List String)
  | trackArtifacts
deriving Repr, DecidableEq

/-- Oracle outcomes for the external collaborators and the filesystem:
whether `kpt pkg init` succeeds, whether `openFile` succeeds, whether
`kpt live init` succeeds, whether the merged-file write succeeds, the
identifiers the external inventory initializer generates when no
`--inventory-id` or `--name` argument is passed, whether `kpt fn source`
(getManifests) succeeds, whether `CollectNamespaces` succeeds and the
namespace list it returns, and whether `kpt live apply` succeeds. -/
structure Env where
  pkgInitOk : Bool
  openOk : Bool
  liveInitOk : Bool
  writeOk : Bool
  genID : String
  genName : String
  sourceOk : Bool
  collectOk : Bool
  collectNs : List String
  applyOk : Bool
deriving Repr, DecidableEq

/-- Looks up the value following a flag in a flat argument list. -/
def argValue (flag : String) : List String → Option String
  | [] => none
  | [_] => none
  | a :: b :: rest => if a = flag then some b else argValue flag (b :: rest)

/-- Modelled from the spec: the external package initializer (`kpt pkg
init`, not part of this repository) creates a minimal Kptfile without an
inventory block — spec section 4.2 transition 1 ("create a minimal
file"), matching the source comment at kpt.go lines 201-202 ("This case
happens when Kptfile is created by `kpt pkg init`"). -/
def pkgInitFile : KptFile := ⟨none⟩

/-- Modelled from the spec: the external inventory initializer (`kpt
live init`, not part of this repository) creates the inventory block —
spec section 4.2 transition 2 ("the ONLY legal way to create inventory
identity") and the glossary ("Fallback namespace: the well-known default
namespace used when no explicit namespace is supplied").  Each field
comes from the corresponding command-line argument when present;
otherwise the id and name are tool-generated opaque values (oracle
fields) and the namespace is the fallback `defaultNs`. -/
def liveInitInventory (env : Env) (args : List String) : Inventory :=
  { inventoryID := (argValue "--inventory-id" args).getD env.genID
    name := (argValue "--name" args).getD env.genName
    nspace := (argValue "--namespace" args).getD defaultNs }

/-- The namespace arguments of the `kpt live init` invocation (kpt.go
lines 214-218): the per-unit namespace if non-empty, else the global
inventory namespace if non-empty, else nothing. -/
def nsArgs (k : Deployer) : List String :=
  if k.nspace ≠ "" then ["--namespace", k.nspace]
  else if k.inventoryNamespace ≠ "" then ["--namespace", k.inventoryNamespace]
  else []

/-- The full argument list of the `kpt live init` invocation (kpt.go
lines 206-221). -/
def liveInitArgsFor (k : Deployer) : List String :=
  ["live", "init", k.dir] ++ k.flags
    ++ (if k.name ≠ "" then ["--name", k.name] else [])
    ++ (if k.inventoryID ≠ "" then ["--inventory-id", k.inventoryID] else [])
    ++ nsArgs k
    ++ (if k.force then ["--force", "true"] else [])

/-- The merge branch of `kptfileInitIfNot` (kpt.go lines 229-251):
sequential field comparisons against the stored inventory record
(mutated in place in the source, embedded as `inv0 → inv1 → inv2 →
inv3`), the in-place defaulting of the receiver's namespace fields
(`k → k1 → k2`), and the warning records in emission order.  Returns the
mutated receiver, the merged inventory and the warnings. -/
def mergeStep (k : Deployer) (inv0 : Inventory) : Deployer × Inventory × List Warning :=
  let inv1 := if k.inventoryID ≠ "" ∧ k.inventoryID ≠ inv0.inventoryID then
      { inv0 with inventoryID := k.inventoryID } else inv0
  let w1 : List Warning := if k.inventoryID ≠ "" ∧ k.inventoryID ≠ inv0.inventoryID then
      [⟨"inventory", inv0.inventoryID, k.inventoryID⟩] else []
  let inv2 := if k.name ≠ "" ∧ k.name ≠ inv1.name then
      { inv1 with name := k.name } else inv1
  let w2 : List Warning := if k.name ≠ "" ∧ k.name ≠ inv1.name then
      [⟨"name", inv1.name, k.name⟩] else []
  let k1 := if k.nspace = "" then { k with nspace := defaultNs } else k
  let k2 := if k1.inventoryNamespace = "" then { k1 with inventoryNamespace := defaultNs } else k1
  let inv3 := if k2.nspace ≠ inv2.nspace then { inv2 with nspace := k2.nspace }
    else if k2.inventoryNamespace ≠ inv2.nspace then { inv2 with nspace := k2.inventoryNamespace }
    else inv2
  let w3 : List Warning := if k2.nspace ≠ inv2.nspace then
      [⟨"namespace", inv2.nspace, k2.nspace⟩]
    else if k2.inventoryNamespace ≠ inv2.nspace then
      [⟨"namespace", inv2.nspace, k2.inventoryNamespace⟩]
    else []
  (k2, inv3, w1 ++ w2 ++ w3)

/-- The result of one reconciler run: the error (`none` on success), the
possibly mutated receiver, the resulting disk state, and the ordered
trace of observable actions. -/
structure RecOutcome where
  err : Option KptErr
  k : Deployer
  disk : DiskFile
  events : List Event
deriving Repr, DecidableEq

/-- The open/parse/branch phase of `kptfileInitIfNot` (kpt.go lines
192-259), run after the existence check: open and parse the file (fatal
on failure); if the parsed file has no inventory block, run `kpt live
init` with the constructed arguments (fatal on failure); otherwise merge
the desired inventory fields into the stored ones via `mergeStep` and
unconditionally marshal and write the file back.  `evs` is the trace
accumulated by the existence-check phase. -/
def kptfileCheckInventory (env : Env) (k : Deployer) (d : DiskFile)
    (evs : List Event) : RecOutcome :=
  let path := k.dir ++ "/" ++ KptFileName
  if env.openOk = false then ⟨some (.openFileErr path), k, d, evs⟩
  else
    match d with
    | .absent => ⟨some (.openFileErr path), k, d, evs⟩
    | .unparseable => ⟨some (.parseFileErr path), k, d, evs⟩
    | .kptfile kf =>
      match kf.inventory with
      | none =>
        let args := liveInitArgsFor k
        if env.liveInitOk then
          ⟨none, k, .kptfile ⟨some (liveInitInventory env args)⟩, evs ++ [.liveInit args]⟩
        else
          ⟨some (.liveInitErr k.dir), k, d, evs ++ [.liveInit args]⟩
      | some inv0 =>
        let m := mergeStep k inv0
        let warnEvs := m.2.2.map Event.warnEvt
        if env.writeOk then
          ⟨none, m.1, .kptfile ⟨some m.2.1⟩,
            evs ++ warnEvs ++ [.fileWrite path ⟨some m.2.1⟩]⟩
        else
          ⟨some (.writeFileErr path), m.1, d, evs ++ warnEvs⟩

/-- Embedding of `kptfileInitIfNot` (kpt.go lines 180-261): if the
Kptfile does not exist, run `kpt pkg init` (fatal on failure, wrapped as
`pkgInitErr`), then continue with the open/parse/branch phase
`kptfileCheckInventory`. -/
def kptfileInitIfNot (env : Env) (k : Deployer) (disk : DiskFile) : RecOutcome :=
  match disk with
  | .absent =>
    if env.pkgInitOk then
      kptfileCheckInventory env k (.kptfile pkgInitFile) [.pkgInit k.dir]
    else ⟨some (.pkgInitErr k.dir), k, .absent, [.pkgInit k.dir]⟩
  | d => kptfileCheckInventory env k d []

/-- The result of a Deploy run: the returned namespaces or the fatal
error (the source returns a nil namespace slice together with the
error), the possibly mutated receiver, the resulting disk state, and the
ordered trace. -/
structure DeployOutcome where
  result : Except KptErr (List String)
  k : Deployer
  disk : DiskFile
  events : List Event
deriving Repr

/-- The argument list of the `kpt live apply` invocation (kpt.go lines
287-290). -/
def applyArgsFor (k : Deployer) : List String :=
  ["live", "apply", k.dir] ++ k.flags ++ k.applyFlags

/-- Embedding of `Deployer.Deploy` (kpt.go lines 263-301): run the
reconciler (fatal on failure); read the hydrated manifests via `kpt fn
source` (non-fatal: an informational event and an empty manifest list);
collect namespaces from them (non-fatal: an informational event; the
returned namespace list is the oracle's `collectNs` value, what
`CollectNamespaces` returned); run `kpt live apply` (fatal on failure,
wrapped as `liveApplyErr` with a nil namespace list); on success
register build artifacts for tracking and return the collected
namespaces. -/
def Deployer.Deploy (env : Env) (k : Deployer) (disk : DiskFile) : DeployOutcome :=
  let r := kptfileInitIfNot env k disk
  match r.err with
  | some e => ⟨.error e, r.k, r.disk, r.events⟩
  | none =>
    let ev1 : List Event := if env.sourceOk then []
      else [.infoEvent "could not read the hydrated manifest"]
    let ev2 : List Event := if env.collectOk then []
      else [.infoEvent "could not fetch deployed resource namespace"]
    let namespaces := env.collectNs
    let args := applyArgsFor r.k
    if env.applyOk then
      ⟨.ok namespaces, r.k, r.disk,
        r.events ++ ev1 ++ ev2 ++ [.liveApply args, .trackArtifacts]⟩
    else
      ⟨.error (.liveApplyErr r.k.dir), r.k, r.disk,
        r.events ++ ev1 ++ ev2 ++ [.liveApply args]⟩

/-- The number of `kpt pkg init` invocations recorded in a trace. -/
def pkgInitCount (evs : List Event) : Nat :=
  (evs.filter fun e => match e with | .pkgInit _ => true | _ => false).length

/-- The number of `kpt live init` invocations recorded in a trace. -/
def liveInitCount (evs : List Event) : Nat :=
  (evs.filter fun e => match e with | .liveInit _ => true | _ => false).length

/-- The number of state-file writes recorded in a trace. -/
def writeCount (evs : List Event) : Nat :=
  (evs.filter fun e => match e with | .fileWrite _ _ => true | _ => false).length

/-- The warning records of a trace, in emission order. -/
def warningsOf (evs : List Event) : List Warning :=
  evs.filterMap fun e => match e with | .warnEvt w => some w | _ => none

end Kpt

namespace Kpt

/-- The merged inventory produced by the merge branch. -/
def mergedInv (k : Deployer) (inv : Inventory) : Inventory :=
  (mergeStep k inv).2.1

/-- The warning records produced by the merge branch, in emission order. -/
def mergeWarnings (k : Deployer) (inv : Inventory) : List Warning :=
  (mergeStep k inv).2.2

/-- The mutated receiver produced by the merge branch. -/
def mergedDeployer (k : Deployer) (inv : Inventory) : Deployer :=
  (mergeStep k inv).1

/-- An all-success oracle environment used in concrete scenarios. -/
def envAll : Env := ⟨true, true, true, true, "gen-id", "gen-name", true, true, ["ns1"], true⟩

/-- A deployer whose desired inventory values coincide with `invSame`. -/
def kSame : Deployer := ⟨"n", "x", "default", false, [], [], "d", "default"⟩

/-- A stored inventory equal to the desired values of `kSame`. -/
def invSame : Inventory := ⟨"x", "n", "default"⟩

/-- A deployer with every desired inventory value empty. -/
def kEmpty : Deployer := ⟨"", "", "", false, [], [], "d", ""⟩

/-- The deployer of the bootstrap scenario: desired name "app1", empty
inventory id and namespaces. -/
def kApp1 : Deployer := ⟨"app1", "", "", false, [], [], "dir1", ""⟩

theorem liveInitCount_append (a b : List Event) :
    liveInitCount (a ++ b) = liveInitCount a + liveInitCount b := by
  simp [liveInitCount, List.filter_append]

theorem pkgInitCount_append (a b : List Event) :
    pkgInitCount (a ++ b) = pkgInitCount a + pkgInitCount b := by
  simp [pkgInitCount, List.filter_append]

theorem writeCount_append (a b : List Event) :
    writeCount (a ++ b) = writeCount a + writeCount b := by
  simp [writeCount, List.filter_append]

theorem warningsOf_append (a b : List Event) :
    warningsOf (a ++ b) = warningsOf a ++ warningsOf b := by
  simp [warningsOf, List.filterMap_append]

theorem liveInitCount_warnEvs (ws : List Warning) :
    liveInitCount (ws.map Event.warnEvt) = 0 := by
  induction ws with
  | nil => rfl
  | cons w ws _ => simp [liveInitCount, List.filter]

theorem writeCount_warnEvs (ws : List Warning) :
    writeCount (ws.map Event.warnEvt) = 0 := by
  induction ws with
  | nil => rfl
  | cons w ws _ => simp [writeCount, List.filter]

theorem warningsOf_warnEvs (ws : List Warning) :
    warningsOf (ws.map Event.warnEvt) = ws := by
  induction ws with
  | nil => rfl
  | cons w ws ih => simpa [warningsOf] using ih

end Kpt

namespace Kpt

/-- C1 counterexample: with desired inventory values exactly equal to the
stored inventory block (id "x", name "n", namespace "default") and a global
inventory namespace also equal to it, the reconciler run succeeds, invokes
no external initializer and emits no warning, yet still performs a file
write — refuting the claim that a merge in which no field differs performs
zero file writes. -/
theorem C1_counterexample :
    kSame.inventoryID = invSame.inventoryID ∧ kSame.name = invSame.name ∧
    kSame.nspace = invSame.nspace ∧
    (kptfileInitIfNot envAll kSame (DiskFile.kptfile ⟨some invSame⟩)).err = none ∧
    liveInitCount (kptfileInitIfNot envAll kSame (DiskFile.kptfile ⟨some invSame⟩)).events = 0 ∧
    pkgInitCount (kptfileInitIfNot envAll kSame (DiskFile.kptfile ⟨some invSame⟩)).events = 0 ∧
    writeCount (kptfileInitIfNot envAll kSame (DiskFile.kptfile ⟨some invSame⟩)).events ≠ 0 := by
  decide

/-- C1 (amended): for every Deployer whose state file exists and already
contains an inventory block equal to the desired inventory values, running
the reconciler performs zero external initializer invocations and emits no
warnings, and writes back unchanged content — but it always performs
exactly one file write: a merge in which no field differs does trigger a
(content-preserving) write. -/
theorem C1_noop_merge_single_write (env : Env) (k : Deployer) (inv : Inventory)
    (hopen : env.openOk = true) (hwrite : env.writeOk = true)
    (hid : k.inventoryID = inv.inventoryID) (hname : k.name = inv.name)
    (hns : k.nspace = inv.nspace) (hne : k.nspace ≠ "")
    (hgns : k.inventoryNamespace = inv.nspace) :
    (kptfileInitIfNot env k (DiskFile.kptfile ⟨some inv⟩)).err = none ∧
    liveInitCount (kptfileInitIfNot env k (DiskFile.kptfile ⟨some inv⟩)).events = 0 ∧
    pkgInitCount (kptfileInitIfNot env k (DiskFile.kptfile ⟨some inv⟩)).events = 0 ∧
    warningsOf (kptfileInitIfNot env k (DiskFile.kptfile ⟨some inv⟩)).events = [] ∧
    writeCount (kptfileInitIfNot env k (DiskFile.kptfile ⟨some inv⟩)).events = 1 ∧
    (kptfileInitIfNot env k (DiskFile.kptfile ⟨some inv⟩)).disk =
      DiskFile.kptfile ⟨some inv⟩ := by
  have hne2 : inv.nspace ≠ "" := hns ▸ hne
  have hm : mergeStep k inv = (k, inv, []) := by
    simp [mergeStep, hid, hname, hns, hgns, hne2]
  simp [kptfileInitIfNot, kptfileCheckInventory, hopen, hwrite, hm,
    liveInitCount, pkgInitCount, writeCount, warningsOf, List.filter]

/-- Witness for C1 (amended) at the concrete no-op-merge input. -/
theorem C1_noop_merge_single_write_witness :
    (kptfileInitIfNot envAll kSame (DiskFile.kptfile ⟨some invSame⟩)).err = none ∧
    liveInitCount (kptfileInitIfNot envAll kSame (DiskFile.kptfile ⟨some invSame⟩)).events = 0 ∧
    pkgInitCount (kptfileInitIfNot envAll kSame (DiskFile.kptfile ⟨some invSame⟩)).events = 0 ∧
    warningsOf (kptfileInitIfNot envAll kSame (DiskFile.kptfile ⟨some invSame⟩)).events = [] ∧
    writeCount (kptfileInitIfNot envAll kSame (DiskFile.kptfile ⟨some invSame⟩)).events = 1 ∧
    (kptfileInitIfNot envAll kSame (DiskFile.kptfile ⟨some invSame⟩)).disk =
      DiskFile.kptfile ⟨some invSame⟩ :=
  C1_noop_merge_single_write envAll kSame invSame rfl rfl rfl rfl rfl
    (by decide) rfl

end Kpt

namespace Kpt

/-- C2 counterexample: with a stored inventory (id "x", name "old",
namespace "ns-a") and a desired inventory whose every field is empty, the
merge branch does not keep the stored namespace unchanged: it overwrites
it with the fallback "default" and emits a namespace warning — refuting
the claim that a field whose desired value is empty keeps its stored
value. -/
theorem C2_counterexample :
    kEmpty.nspace = "" ∧ kEmpty.inventoryNamespace = "" ∧
    (mergedInv kEmpty ⟨"x", "old", "ns-a"⟩).nspace ≠ "ns-a" ∧
    (mergedInv kEmpty ⟨"x", "old", "ns-a"⟩).nspace = "default" ∧
    mergeWarnings kEmpty ⟨"x", "old", "ns-a"⟩ =
      [⟨"namespace", "ns-a", "default"⟩] := by
  decide

theorem mergeStep_spec (k : Deployer) (inv : Inventory) :
    mergeStep k inv =
      ({ k with
          nspace := if k.nspace = "" then defaultNs else k.nspace,
          inventoryNamespace :=
            if k.inventoryNamespace = "" then defaultNs else k.inventoryNamespace },
       { inventoryID := if k.inventoryID ≠ "" ∧ k.inventoryID ≠ inv.inventoryID then
             k.inventoryID else inv.inventoryID,
         name := if k.name ≠ "" ∧ k.name ≠ inv.name then k.name else inv.name,
         nspace := if (if k.nspace = "" then defaultNs else k.nspace) ≠ inv.nspace then
             (if k.nspace = "" then defaultNs else k.nspace)
           else if (if k.inventoryNamespace = "" then defaultNs else k.inventoryNamespace) ≠ inv.nspace then
             (if k.inventoryNamespace = "" then defaultNs else k.inventoryNamespace)
           else inv.nspace },
       (if k.inventoryID ≠ "" ∧ k.inventoryID ≠ inv.inventoryID then
           [⟨"inventory", inv.inventoryID, k.inventoryID⟩] else []) ++
       (if k.name ≠ "" ∧ k.name ≠ inv.name then [⟨"name", inv.name, k.name⟩] else []) ++
       (if (if k.nspace = "" then defaultNs else k.nspace) ≠ inv.nspace then
           [⟨"namespace", inv.nspace, if k.nspace = "" then defaultNs else k.nspace⟩]
         else if (if k.inventoryNamespace = "" then defaultNs else k.inventoryNamespace) ≠ inv.nspace then
           [⟨"namespace", inv.nspace, if k.inventoryNamespace = "" then defaultNs else k.inventoryNamespace⟩]
         else [])) := by
  by_cases h1 : k.inventoryID ≠ "" ∧ k.inventoryID ≠ inv.inventoryID <;>
  by_cases h2 : k.name ≠ "" ∧ k.name ≠ inv.name <;>
  by_cases h3 : k.nspace = "" <;>
  by_cases h4 : k.inventoryNamespace = "" <;>
  simp [mergeStep, h1, h2, h3, h4] <;> split_ifs <;> rfl

/-- C2 (amended): in the merge branch, the fields InventoryID and Name
are each overwritten (with a warning record naming the field, old value
and new value) exactly when the desired value is non-empty and differs
from the stored value, and an empty desired value keeps the stored value.
The Namespace field does not follow that rule: the empty desired per-unit
and global namespaces are first replaced by the fallback "default"; the
stored namespace is then overwritten with the resolved per-unit namespace
when it differs, or else with the resolved global namespace when that
differs, and a namespace warning is emitted exactly when the stored
namespace changes. -/
theorem C2_merge_field_rule (k : Deployer) (inv : Inventory) :
    ((mergedInv k inv).inventoryID =
      if k.inventoryID ≠ "" ∧ k.inventoryID ≠ inv.inventoryID then k.inventoryID
      else inv.inventoryID) ∧
    (Warning.mk "inventory" inv.inventoryID k.inventoryID ∈ mergeWarnings k inv ↔
      (k.inventoryID ≠ "" ∧ k.inventoryID ≠ inv.inventoryID)) ∧
    ((mergedInv k inv).name =
      if k.name ≠ "" ∧ k.name ≠ inv.name then k.name else inv.name) ∧
    (Warning.mk "name" inv.name k.name ∈ mergeWarnings k inv ↔
      (k.name ≠ "" ∧ k.name ≠ inv.name)) ∧
    ((mergedInv k inv).nspace =
      if (if k.nspace = "" then defaultNs else k.nspace) ≠ inv.nspace then
        (if k.nspace = "" then defaultNs else k.nspace)
      else if (if k.inventoryNamespace = "" then defaultNs else k.inventoryNamespace) ≠ inv.nspace then
        (if k.inventoryNamespace = "" then defaultNs else k.inventoryNamespace)
      else inv.nspace) ∧
    ((∃ w ∈ mergeWarnings k inv, w.field = "namespace") ↔
      (mergedInv k inv).nspace ≠ inv.nspace) := by
  rw [mergedInv, mergeWarnings, mergeStep_spec]
  refine ⟨rfl, ?_, rfl, ?_, rfl, ?_⟩ <;>
  by_cases h1 : k.inventoryID ≠ "" ∧ k.inventoryID ≠ inv.inventoryID <;>
  by_cases h2 : k.name ≠ "" ∧ k.name ≠ inv.name <;>
  by_cases h5 : (if k.nspace = "" then defaultNs else k.nspace) ≠ inv.nspace <;>
  by_cases h6 : (if k.inventoryNamespace = "" then defaultNs else k.inventoryNamespace) ≠ inv.nspace <;>
  simp_all [List.mem_append] <;>
  first
    | exact ⟨_, Or.inr rfl, rfl⟩
    | exact ⟨_, Or.inr (Or.inr rfl), rfl⟩
    | (rintro x (⟨hx, rfl⟩ | rfl) <;> simp)

end Kpt

namespace Kpt

/-- C3: starting from a directory with no state file and desired
inventory name "app1" with empty inventory id and namespaces, the
reconciler first invokes the package initializer (`kpt pkg init`), then
invokes the inventory initializer (`kpt live init`) whose arguments are
exactly `live init dir1 --name app1`, and the resulting inventory block
carries the fallback default namespace. -/
theorem C3_bootstrap_scenario :
    (kptfileInitIfNot envAll kApp1 DiskFile.absent).events =
      [Event.pkgInit "dir1",
       Event.liveInit ["live", "init", "dir1", "--name", "app1"]] ∧
    (kptfileInitIfNot envAll kApp1 DiskFile.absent).err = none ∧
    ∃ inv, (kptfileInitIfNot envAll kApp1 DiskFile.absent).disk =
        DiskFile.kptfile ⟨some inv⟩ ∧ inv.name = "app1" ∧ inv.nspace = defaultNs := by
  refine ⟨by decide, by decide, ⟨"gen-id", "app1", defaultNs⟩, by decide, rfl, rfl⟩

/-- C6: in the merge branch, with stored inventory namespace "ns-a",
desired per-unit namespace "ns-b" and desired global inventory namespace
"ns-c", the resulting stored namespace is "ns-b": the per-unit namespace
takes priority over the global inventory namespace. -/
theorem C6_namespace_precedence (k : Deployer) (inv : Inventory)
    (hst : inv.nspace = "ns-a") (hd : k.nspace = "ns-b")
    (_hg : k.inventoryNamespace = "ns-c") :
    (mergedInv k inv).nspace = "ns-b" := by
  rw [mergedInv, mergeStep_spec]
  simp [hst, hd]

/-- Witness for C6 at a concrete merge input. -/
theorem C6_namespace_precedence_witness :
    (mergedInv ⟨"", "", "ns-c", false, [], [], "d", "ns-b"⟩ ⟨"i", "n", "ns-a"⟩).nspace = "ns-b" :=
  C6_namespace_precedence ⟨"", "", "ns-c", false, [], [], "d", "ns-b"⟩ ⟨"i", "n", "ns-a"⟩
    rfl rfl rfl

/-- C7: in the merge branch, with stored inventory namespace "" and both
desired namespaces empty, the resulting stored namespace is the fallback
default value "default". -/
theorem C7_namespace_default (k : Deployer) (inv : Inventory)
    (hst : inv.nspace = "") (hd : k.nspace = "")
    (_hg : k.inventoryNamespace = "") :
    (mergedInv k inv).nspace = defaultNs := by
  rw [mergedInv, mergeStep_spec]
  simp [hst, hd, defaultNs]

/-- Witness for C7 at a concrete merge input. -/
theorem C7_namespace_default_witness :
    (mergedInv ⟨"", "", "", false, [], [], "d", ""⟩ ⟨"i", "n", ""⟩).nspace = defaultNs :=
  C7_namespace_default ⟨"", "", "", false, [], [], "d", ""⟩ ⟨"i", "n", ""⟩ rfl rfl rfl

end Kpt

namespace Kpt

theorem checkInv_ok_inventory (env : Env) (k : Deployer) (d : DiskFile) (evs : List Event)
    (h : (kptfileCheckInventory env k d evs).err = none) :
    ∃ inv, (kptfileCheckInventory env k d evs).disk = DiskFile.kptfile ⟨some inv⟩ := by
  by_cases ho : env.openOk = false
  · simp [kptfileCheckInventory, ho] at h
  · cases d with
    | absent => simp [kptfileCheckInventory, ho] at h
    | unparseable => simp [kptfileCheckInventory, ho] at h
    | kptfile kf =>
      cases hkf : kf.inventory with
      | none =>
        by_cases hl : env.liveInitOk
        · exact ⟨liveInitInventory env (liveInitArgsFor k),
            by simp [kptfileCheckInventory, ho, hkf, hl]⟩
        · simp [kptfileCheckInventory, ho, hkf, hl] at h
      | some inv0 =>
        by_cases hw : env.writeOk
        · exact ⟨(mergeStep k inv0).2.1,
            by simp [kptfileCheckInventory, ho, hkf, hw]⟩
        · simp [kptfileCheckInventory, ho, hkf, hw] at h

theorem rec_ok_inventory (env : Env) (k : Deployer) (d : DiskFile)
    (h : (kptfileInitIfNot env k d).err = none) :
    ∃ inv, (kptfileInitIfNot env k d).disk = DiskFile.kptfile ⟨some inv⟩ := by
  cases d with
  | absent =>
    by_cases hp : env.pkgInitOk
    · rw [kptfileInitIfNot] at h ⊢
      simp only [hp, if_true] at h ⊢
      exact checkInv_ok_inventory env k _ _ h
    · simp [kptfileInitIfNot, hp] at h
  | unparseable => exact checkInv_ok_inventory env k _ _ h
  | kptfile kf => exact checkInv_ok_inventory env k _ _ h

theorem checkInv_no_track (env : Env) (k : Deployer) (d : DiskFile) (evs : List Event)
    (h : Event.trackArtifacts ∉ evs) :
    Event.trackArtifacts ∉ (kptfileCheckInventory env k d evs).events := by
  by_cases ho : env.openOk = false
  · simpa [kptfileCheckInventory, ho] using h
  · cases d with
    | absent => simpa [kptfileCheckInventory, ho] using h
    | unparseable => simpa [kptfileCheckInventory, ho] using h
    | kptfile kf =>
      cases hkf : kf.inventory with
      | none =>
        by_cases hl : env.liveInitOk <;>
          simp [kptfileCheckInventory, ho, hkf, hl, List.mem_append, h]
      | some inv0 =>
        by_cases hw : env.writeOk <;>
          simp [kptfileCheckInventory, ho, hkf, hw, List.mem_append, List.mem_map, h]

theorem rec_no_track (env : Env) (k : Deployer) (d : DiskFile) :
    Event.trackArtifacts ∉ (kptfileInitIfNot env k d).events := by
  cases d with
  | absent =>
    by_cases hp : env.pkgInitOk
    · rw [kptfileInitIfNot]
      simp only [hp, if_true]
      exact checkInv_no_track env k _ _ (by simp)
    · simp [kptfileInitIfNot, hp]
  | unparseable => exact checkInv_no_track env k _ _ (by simp)
  | kptfile kf => exact checkInv_no_track env k _ _ (by simp)

theorem checkInv_no_apply (env : Env) (k : Deployer) (d : DiskFile) (evs : List Event)
    (a : List String) (h : Event.liveApply a ∉ evs) :
    Event.liveApply a ∉ (kptfileCheckInventory env k d evs).events := by
  by_cases ho : env.openOk = false
  · simpa [kptfileCheckInventory, ho] using h
  · cases d with
    | absent => simpa [kptfileCheckInventory, ho] using h
    | unparseable => simpa [kptfileCheckInventory, ho] using h
    | kptfile kf =>
      cases hkf : kf.inventory with
      | none =>
        by_cases hl : env.liveInitOk <;>
          simp [kptfileCheckInventory, ho, hkf, hl, List.mem_append, h]
      | some inv0 =>
        by_cases hw : env.writeOk <;>
          simp [kptfileCheckInventory, ho, hkf, hw, List.mem_append, List.mem_map, h]

theorem rec_no_apply (env : Env) (k : Deployer) (d : DiskFile) (a : List String) :
    Event.liveApply a ∉ (kptfileInitIfNot env k d).events := by
  cases d with
  | absent =>
    by_cases hp : env.pkgInitOk
    · rw [kptfileInitIfNot]
      simp only [hp, if_true]
      exact checkInv_no_apply env k _ _ a (by simp)
    · simp [kptfileInitIfNot, hp]
  | unparseable => exact checkInv_no_apply env k _ _ a (by simp)
  | kptfile kf => exact checkInv_no_apply env k _ _ a (by simp)

end Kpt

namespace Kpt

/-- C5: in every single run of the reconciler over an existing, parseable
and openable state file, if the file has no inventory block the inventory
initializer is invoked exactly once and the merge branch is not entered
(no file write and no warning in that run); if the file has an inventory
block, the inventory initializer is never invoked. -/
theorem C5_bootstrap_merge_exclusive (env : Env) (k : Deployer) (kf : KptFile)
    (hopen : env.openOk = true) :
    (kf.inventory = none →
      liveInitCount (kptfileInitIfNot env k (DiskFile.kptfile kf)).events = 1 ∧
      writeCount (kptfileInitIfNot env k (DiskFile.kptfile kf)).events = 0 ∧
      warningsOf (kptfileInitIfNot env k (DiskFile.kptfile kf)).events = []) ∧
    (∀ inv0, kf.inventory = some inv0 →
      liveInitCount (kptfileInitIfNot env k (DiskFile.kptfile kf)).events = 0) := by
  constructor
  · intro hkf
    by_cases hl : env.liveInitOk <;>
      simp [kptfileInitIfNot, kptfileCheckInventory, hopen, hkf, hl,
        liveInitCount, writeCount, warningsOf, List.filter]
  · intro inv0 hkf
    by_cases hw : env.writeOk <;>
      simp [kptfileInitIfNot, kptfileCheckInventory, hopen, hkf, hw,
        liveInitCount_append, liveInitCount_warnEvs, liveInitCount, List.filter]

/-- Witness for C5 at a concrete inventory-less state file. -/
theorem C5_bootstrap_merge_exclusive_witness :
    ((KptFile.mk none).inventory = none →
      liveInitCount (kptfileInitIfNot envAll kSame (DiskFile.kptfile ⟨none⟩)).events = 1 ∧
      writeCount (kptfileInitIfNot envAll kSame (DiskFile.kptfile ⟨none⟩)).events = 0 ∧
      warningsOf (kptfileInitIfNot envAll kSame (DiskFile.kptfile ⟨none⟩)).events = []) ∧
    (∀ inv0, (KptFile.mk none).inventory = some inv0 →
      liveInitCount (kptfileInitIfNot envAll kSame (DiskFile.kptfile ⟨none⟩)).events = 0) :=
  C5_bootstrap_merge_exclusive envAll kSame ⟨none⟩ rfl

/-- C10: when the reconciler takes the merge branch (existing, parseable
state file with an inventory block), it mutates the Deployer receiver
itself, not only the state file: empty per-unit and global inventory
namespaces are set in place to the fallback "default", the receiver's
namespaces are non-empty afterwards, and a subsequent `kpt live init`
argument construction from the returned receiver passes exactly the
resolved per-unit namespace. -/
theorem C10_merge_mutates_deployer (env : Env) (k : Deployer) (inv : Inventory)
    (hopen : env.openOk = true) :
    (kptfileInitIfNot env k (DiskFile.kptfile ⟨some inv⟩)).k =
      { k with
          nspace := if k.nspace = "" then defaultNs else k.nspace,
          inventoryNamespace :=
            if k.inventoryNamespace = "" then defaultNs else k.inventoryNamespace } ∧
    (kptfileInitIfNot env k (DiskFile.kptfile ⟨some inv⟩)).k.nspace ≠ "" ∧
    (kptfileInitIfNot env k (DiskFile.kptfile ⟨some inv⟩)).k.inventoryNamespace ≠ "" ∧
    nsArgs (kptfileInitIfNot env k (DiskFile.kptfile ⟨some inv⟩)).k =
      ["--namespace", if k.nspace = "" then defaultNs else k.nspace] := by
  have hk : (kptfileInitIfNot env k (DiskFile.kptfile ⟨some inv⟩)).k =
      { k with
          nspace := if k.nspace = "" then defaultNs else k.nspace,
          inventoryNamespace :=
            if k.inventoryNamespace = "" then defaultNs else k.inventoryNamespace } := by
    by_cases hw : env.writeOk <;>
      simp [kptfileInitIfNot, kptfileCheckInventory, hopen, hw, mergeStep_spec]
  refine ⟨hk, ?_, ?_, ?_⟩
  · rw [hk]
    by_cases h : k.nspace = "" <;> simp [h, defaultNs]
  · rw [hk]
    by_cases h : k.inventoryNamespace = "" <;> simp [h, defaultNs]
  · rw [hk]
    unfold nsArgs
    by_cases h : k.nspace = "" <;> simp [h, defaultNs]

/-- Witness for C10 at a concrete merge input with both namespaces empty. -/
theorem C10_merge_mutates_deployer_witness :
    (kptfileInitIfNot envAll kEmpty (DiskFile.kptfile ⟨some invSame⟩)).k =
      { kEmpty with
          nspace := if kEmpty.nspace = "" then defaultNs else kEmpty.nspace,
          inventoryNamespace :=
            if kEmpty.inventoryNamespace = "" then defaultNs else kEmpty.inventoryNamespace } ∧
    (kptfileInitIfNot envAll kEmpty (DiskFile.kptfile ⟨some invSame⟩)).k.nspace ≠ "" ∧
    (kptfileInitIfNot envAll kEmpty (DiskFile.kptfile ⟨some invSame⟩)).k.inventoryNamespace ≠ "" ∧
    nsArgs (kptfileInitIfNot envAll kEmpty (DiskFile.kptfile ⟨some invSame⟩)).k =
      ["--namespace", if kEmpty.nspace = "" then defaultNs else kEmpty.nspace] :=
  C10_merge_mutates_deployer envAll kEmpty invSame rfl

end Kpt

namespace Kpt

theorem checkInv_k_dir (env : Env) (k : Deployer) (d : DiskFile) (evs : List Event) :
    (kptfileCheckInventory env k d evs).k.dir = k.dir := by
  by_cases ho : env.openOk = false
  · simp [kptfileCheckInventory, ho]
  · cases d with
    | absent => simp [kptfileCheckInventory, ho]
    | unparseable => simp [kptfileCheckInventory, ho]
    | kptfile kf =>
      cases hkf : kf.inventory with
      | none => by_cases hl : env.liveInitOk <;> simp [kptfileCheckInventory, ho, hkf, hl]
      | some inv0 =>
        by_cases hw : env.writeOk <;>
          simp [kptfileCheckInventory, ho, hkf, hw, mergeStep_spec]

theorem rec_k_dir (env : Env) (k : Deployer) (d : DiskFile) :
    (kptfileInitIfNot env k d).k.dir = k.dir := by
  cases d with
  | absent =>
    by_cases hp : env.pkgInitOk
    · rw [kptfileInitIfNot]
      simp only [hp, if_true]
      exact checkInv_k_dir env k _ _
    · simp [kptfileInitIfNot, hp]
  | unparseable => exact checkInv_k_dir env k _ _
  | kptfile kf => exact checkInv_k_dir env k _ _

/-- C4: the external apply command is only reached after the reconciler
has completed successfully, and at that point the state file contains a
non-empty inventory block — apply never runs against a state file lacking
inventory identity. -/
theorem C4_apply_requires_inventory (env : Env) (k : Deployer) (d : DiskFile)
    (a : List String) (h : Event.liveApply a ∈ (Deployer.Deploy env k d).events) :
    (kptfileInitIfNot env k d).err = none ∧
    ∃ inv, (Deployer.Deploy env k d).disk = DiskFile.kptfile ⟨some inv⟩ := by
  rcases hre : (kptfileInitIfNot env k d).err with _ | e
  · refine ⟨rfl, ?_⟩
    have hdisk : (Deployer.Deploy env k d).disk = (kptfileInitIfNot env k d).disk := by
      by_cases ha : env.applyOk <;> simp [Deployer.Deploy, hre, ha]
    rw [hdisk]
    exact rec_ok_inventory env k d hre
  · exfalso
    have hev : (Deployer.Deploy env k d).events = (kptfileInitIfNot env k d).events := by
      simp [Deployer.Deploy, hre]
    rw [hev] at h
    exact rec_no_apply env k d a h

/-- Witness for C4: a concrete Deploy run whose trace contains the apply
invocation. -/
theorem C4_apply_requires_inventory_witness :
    (kptfileInitIfNot envAll kSame (DiskFile.kptfile ⟨some invSame⟩)).err = none ∧
    ∃ inv, (Deployer.Deploy envAll kSame (DiskFile.kptfile ⟨some invSame⟩)).disk =
        DiskFile.kptfile ⟨some inv⟩ :=
  C4_apply_requires_inventory envAll kSame (DiskFile.kptfile ⟨some invSame⟩)
    ["live", "apply", "d"] (by decide)

/-- C8: when the reconciler succeeds but reading the rendered manifests
or collecting namespaces fails, Deploy emits an informational event,
still invokes the external apply command, and on apply success returns
the collected (possibly empty) namespace list rather than an error. -/
theorem C8_render_failure_nonfatal (env : Env) (k : Deployer) (d : DiskFile)
    (hfail : env.sourceOk = false ∨ env.collectOk = false)
    (happ : env.applyOk = true)
    (hrec : (kptfileInitIfNot env k d).err = none) :
    (Deployer.Deploy env k d).result = Except.ok env.collectNs ∧
    (∃ a, Event.liveApply a ∈ (Deployer.Deploy env k d).events) ∧
    (∃ m, Event.infoEvent m ∈ (Deployer.Deploy env k d).events) := by
  refine ⟨?_, ?_, ?_⟩
  · simp [Deployer.Deploy, hrec, happ]
  · exact ⟨applyArgsFor (kptfileInitIfNot env k d).k,
      by simp [Deployer.Deploy, hrec, happ, List.mem_append]⟩
  · rcases hfail with hf | hf
    · exact ⟨"could not read the hydrated manifest",
        by simp [Deployer.Deploy, hrec, happ, hf, List.mem_append]⟩
    · exact ⟨"could not fetch deployed resource namespace",
        by simp [Deployer.Deploy, hrec, happ, hf, List.mem_append]⟩

/-- Witness for C8: a concrete Deploy run with a failing manifest read
and a succeeding apply. -/
theorem C8_render_failure_nonfatal_witness :
    (Deployer.Deploy ⟨true, true, true, true, "gi", "gn", false, true, ["nsA"], true⟩
        kSame (DiskFile.kptfile ⟨some invSame⟩)).result = Except.ok ["nsA"] ∧
    (∃ a, Event.liveApply a ∈ (Deployer.Deploy ⟨true, true, true, true, "gi", "gn", false, true, ["nsA"], true⟩
        kSame (DiskFile.kptfile ⟨some invSame⟩)).events) ∧
    (∃ m, Event.infoEvent m ∈ (Deployer.Deploy ⟨true, true, true, true, "gi", "gn", false, true, ["nsA"], true⟩
        kSame (DiskFile.kptfile ⟨some invSame⟩)).events) :=
  C8_render_failure_nonfatal ⟨true, true, true, true, "gi", "gn", false, true, ["nsA"], true⟩
    kSame (DiskFile.kptfile ⟨some invSame⟩) (Or.inl rfl) rfl (by decide)

/-- C9: when the external apply command runs and fails, Deploy returns a
nil namespace list together with the ApplyError wrapping the directory
path, and build-artifact tracking is never invoked in that execution. -/
theorem C9_apply_failure_fatal (env : Env) (k : Deployer) (d : DiskFile)
    (happ : env.applyOk = false)
    (hrec : (kptfileInitIfNot env k d).err = none) :
    (Deployer.Deploy env k d).result = Except.error (KptErr.liveApplyErr k.dir) ∧
    Event.trackArtifacts ∉ (Deployer.Deploy env k d).events := by
  constructor
  · simp [Deployer.Deploy, hrec, happ, rec_k_dir env k d]
  · by_cases hs : env.sourceOk <;> by_cases hc : env.collectOk <;>
      simp [Deployer.Deploy, hrec, happ, hs, hc, List.mem_append,
        rec_no_track env k d]

/-- Witness for C9: a concrete Deploy run with a failing apply. -/
theorem C9_apply_failure_fatal_witness :
    (Deployer.Deploy ⟨true, true, true, true, "gi", "gn", true, true, ["nsA"], false⟩
        kSame (DiskFile.kptfile ⟨some invSame⟩)).result =
      Except.error (KptErr.liveApplyErr kSame.dir) ∧
    Event.trackArtifacts ∉ (Deployer.Deploy ⟨true, true, true, true, "gi", "gn", true, true, ["nsA"], false⟩
        kSame (DiskFile.kptfile ⟨some invSame⟩)).events :=
  C9_apply_failure_fatal ⟨true, true, true, true, "gi", "gn", true, true, ["nsA"], false⟩
    kSame (DiskFile.kptfile ⟨some invSame⟩) rfl (by decide)

end Kpt
